import Mathlib

/-!
Verification of the Find_A_Job_Agent core pipeline (src/FAJA/findwork_agent.py):
the query parser `parse_user_input`, the listing client `FindJobs.search_jobs`
(its retry loop, with the HTTP layer abstracted as an oracle giving the outcome
of each attempt), the result formatter, and the tool adapter `search_jobs_tool`.

Python regular expressions are embedded as explicit scanning functions over
lists of characters; matching is leftmost with greedy captures, exactly as
the `re.search` calls in the source behave on the patterns used there (each
capture group is trailing, so greedy means maximal).  CPython classifies
characters through its Unicode tables: regex \w matches Unicode word
characters, \d matches Unicode decimal digits, and re.IGNORECASE compares
characters through a per-character Unicode lowercasing table.  Those tables
are not enumerated here; instead every matcher is parametric in the word
classifier `w`, the digit classifier `d`, and the lowercasing function
`low`, so a theorem quantified over them covers the true CPython tables as
one instance.  The ASCII instances below (`isWordChar`, `Char.isDigit`,
`Char.toLower`) agree with CPython on ASCII input and are used for concrete
evaluation and witnesses.
-/

/-- ASCII instance of regex \w: alphanumeric or underscore.  CPython extends
this to Unicode word characters; theorems that depend on \w quantify over
the classifier instead of fixing this instance. -/
def isWordChar (c : Char) : Bool := c.isAlphanum || c == '_'

/-- Literal match at the head of a string, parametric in the per-character
lowercasing function `low` applied to both sides (as re.IGNORECASE does): if
the literal `lit` matches a prefix of the string, return the remainder. -/
def dropLitW (low : Char → Char) : List Char → List Char → Option (List Char)
  | [], s => some s
  | _ :: _, [] => none
  | p :: ps, c :: cs => if low p = low c then dropLitW low ps cs else none

/-- Embedding of `re.search(lit ++ r"(\w+)", s, re.IGNORECASE).group(1)`,
parametric in the lowercasing function `low` and the word classifier `w`:
scan positions left to right; at the first position where the literal
matches case-insensitively and is followed by at least one word character,
return the maximal run of word characters after the literal (in original
case). -/
def searchLitWordW (low : Char → Char) (w : Char → Bool) (lit : List Char) :
    List Char → Option (List Char)
  | [] =>
    match dropLitW low lit [] with
    | some rem =>
      let cap := rem.takeWhile w
      if cap.isEmpty then none else some cap
    | none => none
  | c :: rest =>
    match dropLitW low lit (c :: rest) with
    | some rem =>
      let cap := rem.takeWhile w
      if cap.isEmpty then searchLitWordW low w lit rest else some cap
    | none => searchLitWordW low w lit rest

/-- The ASCII instance of the literal-then-word search. -/
def searchLitWord : List Char → List Char → Option (List Char) :=
  searchLitWordW Char.toLower isWordChar

/-- Case-sensitive list-prefix test. -/
def startsWithL : List Char → List Char → Bool
  | [], _ => true
  | _ :: _, [] => false
  | p :: ps, c :: cs => p == c && startsWithL ps cs

/-- Substring containment test (embedding of the Python `in` operator on
strings). -/
def containsL (pat : List Char) : List Char → Bool
  | [] => startsWithL pat []
  | c :: rest => startsWithL pat (c :: rest) || containsL pat rest

/-- Match of the tail of the pattern `\b(\d+) open jobs\b` at the current
position, parametric in the word classifier `w` and digit classifier `d`: a
nonempty maximal digit run, then the literal " open jobs", then a trailing
word boundary. -/
def openJobsAtW (w d : Char → Bool) (s : List Char) : Bool :=
  let ds := s.takeWhile d
  let rest := s.drop ds.length
  (!ds.isEmpty) && startsWithL " open jobs".data rest &&
    (let after := rest.drop 10
     after.isEmpty || !(w (after.headD ' ')))

/-- The leading word boundary of `\b(\d+)...`: since a digit is a word
character, it holds exactly when the previous character is absent or is not a
word character. -/
def boundaryBeforeW (w : Char → Bool) : Option Char → Bool
  | none => true
  | some p => !(w p)

/-- Embedding of `re.search(r"\b(\d+) open jobs\b", s) is not None`, scanning
positions left to right carrying the previous character, parametric in the
word and digit classifiers. -/
def searchOpenJobsW (w d : Char → Bool) : Option Char → List Char → Bool
  | _, [] => false
  | prev, c :: rest =>
    (boundaryBeforeW w prev && openJobsAtW w d (c :: rest)) ||
      searchOpenJobsW w d (some c) rest

/-- The ASCII instance of the open-jobs search. -/
def searchOpenJobs : Option Char → List Char → Bool :=
  searchOpenJobsW isWordChar Char.isDigit

/-- The structured parameter set built by the query parser
(`parsed_query` in the source). -/
structure SearchParameters where
  search : String
  location : Option String
  sort_by : String
  page : Nat
deriving DecidableEq

/-- The defaults the parser starts from. -/
def defaultParams : SearchParameters :=
  { search := "", location := none, sort_by := "date", page := 1 }

def inPat : List Char := "in ".data

def forAPat : List Char := "for a ".data

def remotePat : List Char := "remote".data

/-- Embedding of `parse_user_input` from src/FAJA/findwork_agent.py: the four
regex rules applied in source order over the defaults, parametric in the
lowercasing function and the word and digit classifiers of the regex engine.
The remote rule embeds `"remote" in user_input.lower()` with the concrete
per-character lowercasing, which agrees with CPython here because no
character outside the letters of "remote" lowercases into them. -/
def parseUserInputW (low : Char → Char) (w d : Char → Bool)
    (user_input : String) : SearchParameters :=
  let chars := user_input.data
  let parsed1 :=
    match searchLitWordW low w inPat chars with
    | some cap => { defaultParams with location := some (String.mk cap) }
    | none => defaultParams
  let parsed2 :=
    match searchLitWordW low w forAPat chars with
    | some cap => { parsed1 with search := String.mk cap }
    | none => parsed1
  let parsed3 :=
    if containsL remotePat (chars.map Char.toLower) then
      { parsed2 with search := "remote" }
    else parsed2
  if searchOpenJobsW w d none chars then { parsed3 with page := 1 } else parsed3

/-- The ASCII instance of the parser, faithful to the source on ASCII
input. -/
def parse_user_input : String → SearchParameters :=
  parseUserInputW Char.toLower isWordChar Char.isDigit

/-- One job object of the `results` array of the API response. -/
structure JobListing where
  company_name : String
  role : String
  location : String
  remote : Bool
  date_posted : String
  url : String
deriving DecidableEq

/-- The JSON response dictionary as far as the pipeline inspects it: an
optional `results` key (absent is `none`) and an optional `error` key. -/
structure ListingResponse where
  results : Option (List JobListing)
  error : Option String
deriving DecidableEq

/-- The message of the sentinel error dictionary returned after exhausting
all retries. -/
def errMsg : String := "Failed to fetch job listings after multiple attempts."

/-- The sentinel error value `\x7b"error": "Failed to fetch job listings
after multiple attempts."\x7d`. -/
def errorSentinel : ListingResponse := { results := none, error := some errMsg }

/-- Observable outcome of one run of `FindJobs.search_jobs`: the returned
value, the number of HTTP attempts issued, and the number of 2-second
`time.sleep` backoff calls executed. -/
structure ClientRun where
  result : ListingResponse
  attempts : Nat
  sleeps : Nat
deriving DecidableEq

/-- The retry loop of `FindJobs.search_jobs`, with the HTTP layer abstracted
as `outcome`: `outcome n = some resp` means attempt `n` succeeds with parsed
body `resp`; `outcome n = none` means attempt `n` raises a
`requests.exceptions.RequestException` (network error or, via
`raise_for_status`, a non-2xx status).  On every failure the source logs and
executes `time.sleep(2)` before the next loop iteration, including after the
final attempt. -/
def searchJobsLoop (outcome : Nat → Option ListingResponse) :
    Nat → Nat → Nat → ClientRun
  | attempt, sleeps, 0 => ⟨errorSentinel, attempt, sleeps⟩
  | attempt, sleeps, remaining + 1 =>
    match outcome attempt with
    | some resp => ⟨resp, attempt + 1, sleeps⟩
    | none => searchJobsLoop outcome (attempt + 1) (sleeps + 1) remaining

/-- Embedding of `FindJobs.search_jobs`: `retries = 3` attempts starting from
attempt 0 with no sleeps yet. -/
def search_jobs (outcome : Nat → Option ListingResponse) : ClientRun :=
  searchJobsLoop outcome 0 0 3

/-- The fixed message returned when `results` is absent or empty. -/
def noJobsMsg : String := "❌ No job listings found. Try different keywords or location."

/-- The fixed-template block rendered for one job (the f-string appended to
`formatted_jobs` in the source). -/
def format_job (job : JobListing) : String :=
  "🏢 **" ++ job.company_name ++ "** - " ++ job.role ++ "\n" ++
  "📍 **Location:** " ++ job.location ++ "\n" ++
  "🌍 **Remote:** " ++ (if job.remote then "Yes" else "No") ++ "\n" ++
  "📅 **Posted:** " ++ job.date_posted ++ "\n" ++
  "🔗 [View Job](" ++ job.url ++ ")\n"

/-- The list of rendered blocks: the first at most 5 results, each formatted
(`formatted_jobs` in the source; empty when no results are rendered). -/
def renderedBlocks (job_results : ListingResponse) : List String :=
  match job_results.results with
  | some l => (l.take 5).map format_job
  | none => []

/-- The result-formatter half of `search_jobs_tool`: the branch
`if "results" in job_results and job_results["results"]` renders the first at
most 5 jobs joined by a blank line; otherwise the fixed no-jobs message. -/
def format_response (job_results : ListingResponse) : String :=
  match job_results.results with
  | some l =>
    if l = [] then noJobsMsg
    else String.intercalate "\n\n" ((l.take 5).map format_job)
  | none => noJobsMsg

/-- The two input modes of the tool adapter: a raw string, or an
already-structured parameter mapping. -/
inductive ToolInput where
  | text (s : String)
  | params (p : SearchParameters)

/-- Embedding of `search_jobs_tool`: parse the input when it is a string,
otherwise use it directly; call the client; format the response.  The HTTP
layer is the `outcome` oracle, which may depend on the parameters sent. -/
def search_jobs_tool (outcome : SearchParameters → Nat → Option ListingResponse)
    (input_text : ToolInput) : String :=
  let parsed_input :=
    match input_text with
    | .text s => parse_user_input s
    | .params p => p
  let job_results := (search_jobs (outcome parsed_input)).result
  format_response job_results

/-- A concrete job used as a test fixture. -/
def sampleJob : JobListing :=
  { company_name := "Acme", role := "Engineer", location := "Austin",
    remote := true, date_posted := "2025-01-01", url := "https://example.com/1" }

/-- Six identical jobs: more than the 5-block limit. -/
def sixJobs : List JobListing := List.replicate 6 sampleJob

/-- A response carrying six results. -/
def sixResp : ListingResponse := { results := some sixJobs, error := none }

/-- Whatever the four regex rules do, the parser output keeps `page = 1` and
`sort_by = "date"`: no rule writes any other value to these fields. -/
theorem parse_page_sort (s : String) :
    (parse_user_input s).page = 1 ∧ (parse_user_input s).sort_by = "date" := by
  simp only [parse_user_input, parseUserInputW]
  split <;> split <;> split <;> split <;> simp [defaultParams]

/-- Claim C7: the parser maps "Looking for a developer in Austin" to exactly
the parameter set with search "developer", location "Austin", sort_by "date"
and page 1. -/
theorem C7_austin_example :
    parse_user_input "Looking for a developer in Austin" =
    { search := "developer", location := some "Austin", sort_by := "date", page := 1 } := by
  decide

/-- Claim C9: every parser output satisfies the data-model invariant
`page ≥ 1` and `sort_by ∈ \x7bdate, relevance\x7d`; in fact `page = 1` and
`sort_by = "date"` always. -/
theorem C9_params_invariant (s : String) :
    (parse_user_input s).page = 1 ∧
    (parse_user_input s).sort_by = "date" ∧
    1 ≤ (parse_user_input s).page ∧
    ((parse_user_input s).sort_by = "date" ∨ (parse_user_input s).sort_by = "relevance") := by
  obtain ⟨hp, hs⟩ := parse_page_sort s
  exact ⟨hp, hs, hp.ge, Or.inl hs⟩

/-- Claim C2: if the input matches "for a <word>" and contains the word
"remote" (lowercased substring check, as in the source), the final `search`
is the literal "remote": rule 3 overwrites rule 2, last-applied-wins. -/
theorem C2_remote_overrides_role (s : String)
    (_hrole : searchLitWord forAPat s.data ≠ none)
    (hremote : containsL remotePat (s.data.map Char.toLower) = true) :
    (parse_user_input s).search = "remote" := by
  simp only [parse_user_input, parseUserInputW, hremote, if_true]
  split <;> split <;> split <;> simp

/-- Witness for C2 at the concrete input "for a developer remote". -/
theorem C2_witness :
    searchLitWord forAPat "for a developer remote".data ≠ none ∧
    containsL remotePat ("for a developer remote".data.map Char.toLower) = true ∧
    (parse_user_input "for a developer remote").search = "remote" :=
  ⟨by decide, by decide,
    C2_remote_overrides_role "for a developer remote" (by decide) (by decide)⟩

/-- Claim C4: when none of the four patterns matches, the parser returns
exactly the default parameter set (and, being a total function, it raises no
error on any input).  The statement is quantified over the lowercasing
function and the word and digit classifiers of the regex engine, so it
covers in particular the true CPython Unicode tables: whenever the CPython
regexes find no match on an input, the program returns the defaults. -/
theorem C4_defaults (low : Char → Char) (w d : Char → Bool) (s : String)
    (h1 : searchLitWordW low w inPat s.data = none)
    (h2 : searchLitWordW low w forAPat s.data = none)
    (h3 : containsL remotePat (s.data.map Char.toLower) = false)
    (h4 : searchOpenJobsW w d none s.data = false) :
    parseUserInputW low w d s =
      { search := "", location := none, sort_by := "date", page := 1 } := by
  simp [parseUserInputW, h1, h2, h3, h4, defaultParams]

/-- Witness for C4 at the concrete input "hello world", instantiating the
classifiers at the ASCII instances (on which all scanners agree with
CPython). -/
theorem C4_witness :
    searchLitWordW Char.toLower isWordChar inPat "hello world".data = none ∧
    searchLitWordW Char.toLower isWordChar forAPat "hello world".data = none ∧
    containsL remotePat ("hello world".data.map Char.toLower) = false ∧
    searchOpenJobsW isWordChar Char.isDigit none "hello world".data = false ∧
    parse_user_input "hello world" =
      { search := "", location := none, sort_by := "date", page := 1 } :=
  ⟨by decide, by decide, by decide, by decide,
    C4_defaults Char.toLower isWordChar Char.isDigit "hello world"
      (by decide) (by decide) (by decide) (by decide)⟩

/-- Claim C1 counterexample: on sustained failure the code makes 3 attempts
and returns the sentinel, but the 2-second backoff is executed after every
failed attempt, including the last one, so it runs 3 times, not 2: the
conjunction the claim states is false for the always-failing oracle. -/
theorem C1_counterexample :
    ¬ ((search_jobs (fun _ => none)).attempts = 3 ∧
       (search_jobs (fun _ => none)).sleeps = 2 ∧
       (search_jobs (fun _ => none)).result = errorSentinel) := by
  decide

/-- Claim C1 as amended: on sustained failure (every attempt failing),
`search_jobs` makes exactly 3 HTTP attempts, executes the 2-second backoff
exactly 3 times (after every failed attempt, the last included), and returns
the sentinel error value instead of raising. -/
theorem C1_retry_exhaustion (outcome : Nat → Option ListingResponse)
    (hfail : ∀ n, outcome n = none) :
    (search_jobs outcome).attempts = 3 ∧
    (search_jobs outcome).sleeps = 3 ∧
    (search_jobs outcome).result = errorSentinel := by
  simp [search_jobs, searchJobsLoop, hfail]

/-- Witness for the amended C1 at the concrete always-failing oracle. -/
theorem C1_witness :
    (search_jobs (fun _ => none)).attempts = 3 ∧
    (search_jobs (fun _ => none)).sleeps = 3 ∧
    (search_jobs (fun _ => none)).result = errorSentinel :=
  C1_retry_exhaustion (fun _ => none) (fun _ => rfl)

/-- Claim C3: the formatter renders at most 5 blocks, those blocks are the
first at most 5 results in upstream order (the mapped list truncated, with no
sorting or reordering), and on a nonempty results list the output is exactly
those blocks joined by a blank line. -/
theorem C3_at_most_five (r : ListingResponse) (l : List JobListing)
    (h : r.results = some l) (hl : l ≠ []) :
    (renderedBlocks r).length ≤ 5 ∧
    renderedBlocks r = (l.map format_job).take 5 ∧
    format_response r = String.intercalate "\n\n" (renderedBlocks r) := by
  refine ⟨?_, ?_, ?_⟩
  · simp [renderedBlocks, h]
  · simp [renderedBlocks, h, List.map_take]
  · simp [renderedBlocks, format_response, h, hl]

/-- Witness for C3 at a concrete response with six results. -/
theorem C3_witness :
    (renderedBlocks sixResp).length ≤ 5 ∧
    renderedBlocks sixResp = (sixJobs.map format_job).take 5 ∧
    format_response sixResp = String.intercalate "\n\n" (renderedBlocks sixResp) :=
  C3_at_most_five sixResp sixJobs rfl (by decide)

/-- Claim C5: whenever `results` is absent or empty the formatter returns the
one fixed no-jobs message, the same exact string for every such input. -/
theorem C5_no_jobs_message (r : ListingResponse)
    (h : r.results = none ∨ r.results = some []) :
    format_response r = noJobsMsg := by
  rcases h with h | h <;> simp [format_response, h]

/-- Witness for C5 at the sentinel error response (absent results). -/
theorem C5_witness :
    (errorSentinel.results = none ∨ errorSentinel.results = some []) ∧
    format_response errorSentinel = noJobsMsg :=
  ⟨Or.inl rfl, C5_no_jobs_message errorSentinel (Or.inl rfl)⟩

/-- Claim C6: on a string input the adapter returns
Formatter (Client (Parser s)); on an already-structured parameter mapping it
returns Formatter (Client p), bypassing the parser; in both modes the value
is the rendered text of the formatter. -/
theorem C6_adapter_pipeline
    (outcome : SearchParameters → Nat → Option ListingResponse)
    (s : String) (p : SearchParameters) :
    search_jobs_tool outcome (ToolInput.text s) =
      format_response (search_jobs (outcome (parse_user_input s))).result ∧
    search_jobs_tool outcome (ToolInput.params p) =
      format_response (search_jobs (outcome p)).result :=
  ⟨rfl, rfl⟩

/-- Claim C8: the formatter is total over well-formed responses: every input
produces a string, which is either the fixed no-jobs message or the joined
blocks of the first at most 5 results. -/
theorem C8_formatter_total (r : ListingResponse) :
    format_response r = noJobsMsg ∨
    ∃ l, r.results = some l ∧ l ≠ [] ∧
      format_response r = String.intercalate "\n\n" ((l.take 5).map format_job) := by
  rcases hr : r.results with _ | (_ | ⟨j, rest⟩)
  · exact Or.inl (by simp [format_response, hr])
  · exact Or.inl (by simp [format_response, hr])
  · exact Or.inr ⟨j :: rest, rfl, by simp, by simp [format_response, hr]⟩

/-- Claim C10: with a client whose every attempt fails, the adapter returns
the very same fixed no-jobs message it returns when the API succeeds with an
empty results list: the rendered text does not distinguish sustained API
failure (the sentinel error value) from zero matching jobs. -/
theorem C10_failure_indistinguishable (inp : ToolInput) :
    (search_jobs (fun _ => none)).result = errorSentinel ∧
    search_jobs_tool (fun _ _ => none) inp = noJobsMsg ∧
    search_jobs_tool (fun _ _ => some { results := some [], error := none }) inp = noJobsMsg := by
  refine ⟨rfl, ?_, ?_⟩ <;> cases inp <;> rfl
